import Mathlib

/-
Verification of the guard-combinator algebra in `src/guard.rs`.

A `Guard` is an asynchronous predicate `check(&self, ctx) -> Result<()>`.
We shallowly embed a guard as a function from a context and an effect
state to a check outcome paired with the updated effect state; the state
component makes the side effects of each `check` call observable, so that
the evaluation-order claims (not-short-circuiting of `And`/`Or`,
short-circuiting of `PostAnd`) become provable statements about which
child checks contribute to the final state.

`CheckResult` mirrors Rust's `Result<(), E>`; `CheckResult.rand` and
`CheckResult.ror` mirror `Result::and` and `Result::or`, which the source
uses to combine the two already-awaited child outcomes.
-/

namespace GuardAlg

/-- Outcome of one `check` call: Rust `Result<(), E>` with error type `ε`. -/
inductive CheckResult (ε : Type) : Type where
  | ok : CheckResult ε
  | err : ε → CheckResult ε
deriving DecidableEq, Repr

/-- Rust `Result::and`: if `self` is `Err(e)`, keep `Err(e)`; otherwise return
the argument. Used by `And::check` in `src/guard.rs` line 38. -/
def CheckResult.rand {ε : Type} (a b : CheckResult ε) : CheckResult ε :=
  match a with
  | .ok => b
  | .err e => .err e

/-- Rust `Result::or`: if `self` is `Ok`, keep it; otherwise return the
argument. Used by `Or::check` in `src/guard.rs` line 48. -/
def CheckResult.ror {ε : Type} (a b : CheckResult ε) : CheckResult ε :=
  match a with
  | .ok => .ok
  | .err _ => b

/-- Rust `Result::is_ok` specialised to `CheckResult`. -/
def CheckResult.isOk {ε : Type} : CheckResult ε → Bool
  | .ok => true
  | .err _ => false

/-- A pre-guard (`trait Guard` in `src/guard.rs`): `check` takes a borrowed
context of type `κ` and, in the embedding, an effect state of type `σ`,
returning the outcome together with the state after the call's side
effects. -/
structure Guard (κ ε σ : Type) : Type where
  check : κ → σ → CheckResult ε × σ

/-- `And<A, B>` (`src/guard.rs` lines 33-40): `check` awaits `A.check`,
then awaits `B.check` on the resulting state, and combines the two
outcomes with `Result::and`. Both children always run. -/
def And {κ ε σ : Type} (A B : Guard κ ε σ) : Guard κ ε σ where
  check := fun ctx s =>
    let ra := A.check ctx s
    let rb := B.check ctx ra.2
    (CheckResult.rand ra.1 rb.1, rb.2)

/-- `Or<A, B>` (`src/guard.rs` lines 43-50): `check` awaits `A.check`,
then awaits `B.check` on the resulting state, and combines the two
outcomes with `Result::or`. Both children always run. -/
def Or {κ ε σ : Type} (A B : Guard κ ε σ) : Guard κ ε σ where
  check := fun ctx s =>
    let ra := A.check ctx s
    let rb := B.check ctx ra.2
    (CheckResult.ror ra.1 rb.1, rb.2)

/-- A post-guard (`trait PostGuard<T>` in `src/guard.rs`): `check` also
receives a borrowed view of the already-computed field value of type `τ`. -/
structure PostGuard (κ τ ε σ : Type) : Type where
  check : κ → τ → σ → CheckResult ε × σ

/-- `PostAnd<T, A, B>` (`src/guard.rs` lines 74-84): `self.0.check(ctx,
result).await?` propagates `A`'s error immediately via the `?` operator,
so `B.check` runs only when `A.check` succeeded. -/
def PostAnd {κ τ ε σ : Type} (A B : PostGuard κ τ ε σ) : PostGuard κ τ ε σ where
  check := fun ctx r s =>
    match A.check ctx r s with
    | (.ok, s1) => B.check ctx r s1
    | (.err e, s1) => (.err e, s1)

/-- `GuardExt::and` (`src/guard.rs` line 20): fluent construction of `And`. -/
def Guard.andG {κ ε σ : Type} (A B : Guard κ ε σ) : Guard κ ε σ := And A B

/-- `GuardExt::or` (`src/guard.rs` line 25): fluent construction of `Or`. -/
def Guard.orG {κ ε σ : Type} (A B : Guard κ ε σ) : Guard κ ε σ := Or A B

/-- `PostGuardExt::and` (`src/guard.rs` line 66): fluent construction of
`PostAnd`. -/
def PostGuard.andPG {κ τ ε σ : Type} (A B : PostGuard κ τ ε σ) : PostGuard κ τ ε σ :=
  PostAnd A B

/- Concrete guards used by the witnesses: an always-allowing guard and an
always-denying guard, each incrementing a call counter as its side effect. -/

/-- A guard that always succeeds and bumps the effect counter. -/
def allowG : Guard Unit Nat Nat := ⟨fun _ s => (.ok, s + 1)⟩

/-- A guard that always fails with error `e` and bumps the effect counter. -/
def denyG (e : Nat) : Guard Unit Nat Nat := ⟨fun _ s => (.err e, s + 1)⟩

/-- A post-guard that always succeeds and bumps the effect counter. -/
def allowPG : PostGuard Unit Nat Nat Nat := ⟨fun _ _ s => (.ok, s + 1)⟩

/-- A post-guard that always fails with error `e` and bumps the effect
counter. -/
def denyPG (e : Nat) : PostGuard Unit Nat Nat Nat := ⟨fun _ _ s => (.err e, s + 1)⟩

/- Unfolding equations for the combinators. -/

theorem And_check_eq {κ ε σ : Type} (A B : Guard κ ε σ) (c : κ) (s : σ) :
    (And A B).check c s =
      (CheckResult.rand (A.check c s).1 (B.check c (A.check c s).2).1,
        (B.check c (A.check c s).2).2) := rfl

theorem Or_check_eq {κ ε σ : Type} (A B : Guard κ ε σ) (c : κ) (s : σ) :
    (Or A B).check c s =
      (CheckResult.ror (A.check c s).1 (B.check c (A.check c s).2).1,
        (B.check c (A.check c s).2).2) := rfl

theorem PostAnd_check_eq {κ τ ε σ : Type} (A B : PostGuard κ τ ε σ) (c : κ) (r : τ) (s : σ) :
    (PostAnd A B).check c r s =
      match A.check c r s with
      | (.ok, s1) => B.check c r s1
      | (.err e, s1) => (.err e, s1) := rfl

/-- Claim C1: for every pair of guards A and B and every context,
`And(A, B).check` succeeds iff both `A.check` and `B.check` succeed, and
both children are always evaluated — the final effect state is the state
after running B on the state left by A, even when A fails. -/
theorem And_succeeds_iff_both_and_both_run {κ ε σ : Type} (A B : Guard κ ε σ) (c : κ) (s : σ) :
    ((And A B).check c s).2 = (B.check c (A.check c s).2).2 ∧
    (((And A B).check c s).1.isOk = true ↔
      ((A.check c s).1.isOk = true ∧ (B.check c (A.check c s).2).1.isOk = true)) := by
  refine ⟨rfl, ?_⟩
  cases hA : (A.check c s).1 <;> cases hB : (B.check c (A.check c s).2).1 <;>
    simp [And_check_eq, CheckResult.rand, CheckResult.isOk, hA, hB]

/-- Claim C2: `And(A, B).check` error selection — if A fails, the composite
returns A's error (B's outcome is discarded, even if B also failed); if A
succeeds, the composite returns exactly B's result. -/
theorem And_error_priority {κ ε σ : Type} (A B : Guard κ ε σ) (c : κ) (s : σ) :
    (∀ e : ε, (A.check c s).1 = .err e → ((And A B).check c s).1 = .err e) ∧
    ((A.check c s).1 = .ok → ((And A B).check c s).1 = (B.check c (A.check c s).2).1) := by
  constructor
  · intro e hA
    simp [And_check_eq, CheckResult.rand, hA]
  · intro hA
    simp [And_check_eq, CheckResult.rand, hA]

/-- Witness for C2: with both children failing, the composite surfaces the
first child's error; with the first child succeeding, the composite
surfaces the second child's outcome. -/
theorem And_error_priority_witness :
    ((And (denyG 7) (denyG 9)).check () 0).1 = .err 7 ∧
    ((And allowG (denyG 9)).check () 0).1 = .err 9 :=
  ⟨(And_error_priority (denyG 7) (denyG 9) () 0).1 7 rfl,
   ((And_error_priority allowG (denyG 9) () 0).2 rfl).trans rfl⟩

/-- Claim C3: for every pair of guards A and B and every context,
`Or(A, B).check` succeeds iff at least one of `A.check`, `B.check`
succeeds, and both children are always evaluated — the final effect state
is the state after running B on the state left by A, even when A
succeeds. -/
theorem Or_succeeds_iff_either_and_both_run {κ ε σ : Type} (A B : Guard κ ε σ) (c : κ) (s : σ) :
    ((Or A B).check c s).2 = (B.check c (A.check c s).2).2 ∧
    (((Or A B).check c s).1.isOk = true ↔
      ((A.check c s).1.isOk = true ∨ (B.check c (A.check c s).2).1.isOk = true)) := by
  refine ⟨rfl, ?_⟩
  cases hA : (A.check c s).1 <;> cases hB : (B.check c (A.check c s).2).1 <;>
    simp [Or_check_eq, CheckResult.ror, CheckResult.isOk, hA, hB]

/-- Claim C4: `Or(A, B).check` error selection — if A succeeds, the
composite returns A's success and B's outcome is ignored; if A fails, the
composite returns exactly B's result, so on joint failure the surfaced
error is B's. -/
theorem Or_error_priority {κ ε σ : Type} (A B : Guard κ ε σ) (c : κ) (s : σ) :
    ((A.check c s).1 = .ok → ((Or A B).check c s).1 = .ok) ∧
    (∀ e : ε, (A.check c s).1 = .err e →
      ((Or A B).check c s).1 = (B.check c (A.check c s).2).1) ∧
    (∀ ea eb : ε, (A.check c s).1 = .err ea →
      (B.check c (A.check c s).2).1 = .err eb → ((Or A B).check c s).1 = .err eb) := by
  refine ⟨?_, ?_, ?_⟩
  · intro hA
    simp [Or_check_eq, CheckResult.ror, hA]
  · intro e hA
    simp [Or_check_eq, CheckResult.ror, hA]
  · intro ea eb hA hB
    simp [Or_check_eq, CheckResult.ror, hA, hB]

/-- Witness for C4: with the first child succeeding the composite succeeds;
with both children failing the composite surfaces the second child's
error. -/
theorem Or_error_priority_witness :
    ((Or allowG (denyG 9)).check () 0).1 = .ok ∧
    ((Or (denyG 1) (denyG 2)).check () 0).1 = .err 2 :=
  ⟨(Or_error_priority allowG (denyG 9) () 0).1 rfl,
   (Or_error_priority (denyG 1) (denyG 2) () 0).2.2 1 2 rfl rfl⟩

/-- Claim C5: `PostAnd(A, B).check` short-circuits — if A fails, the
composite returns A's error immediately with only A's side effects
performed, and B is never invoked: the composite's behaviour on that input
is independent of which second child was composed in. -/
theorem PostAnd_short_circuits {κ τ ε σ : Type} (A B B2 : PostGuard κ τ ε σ)
    (c : κ) (r : τ) (s : σ) (e : ε) (hA : (A.check c r s).1 = .err e) :
    (PostAnd A B).check c r s = (.err e, (A.check c r s).2) ∧
    (PostAnd A B).check c r s = (PostAnd A B2).check c r s := by
  have hpair : A.check c r s = (.err e, (A.check c r s).2) := by
    rw [← hA]
  refine ⟨?_, ?_⟩
  · rw [PostAnd_check_eq, hpair]
  · rw [PostAnd_check_eq, PostAnd_check_eq, hpair]

/-- Witness for C5: with both children failing, the composite returns the
first child's error with only its side effect, and is unchanged when the
second child is replaced by an always-allowing one. -/
theorem PostAnd_short_circuits_witness :
    (PostAnd (denyPG 3) (denyPG 4)).check () 0 0 = (.err 3, ((denyPG 3).check () 0 0).2) ∧
    (PostAnd (denyPG 3) (denyPG 4)).check () 0 0 = (PostAnd (denyPG 3) allowPG).check () 0 0 :=
  PostAnd_short_circuits (denyPG 3) (denyPG 4) allowPG () 0 0 3 rfl

/-- Claim C6: if A succeeds, `PostAnd(A, B).check` evaluates B on the state
left by A and the composite result is exactly B's result; in particular if
B fails the composite fails with B's error. -/
theorem PostAnd_runs_second_on_success {κ τ ε σ : Type} (A B : PostGuard κ τ ε σ)
    (c : κ) (r : τ) (s : σ) (hA : (A.check c r s).1 = .ok) :
    (PostAnd A B).check c r s = B.check c r (A.check c r s).2 ∧
    (∀ e : ε, (B.check c r (A.check c r s).2).1 = .err e →
      ((PostAnd A B).check c r s).1 = .err e) := by
  have hpair : A.check c r s = (.ok, (A.check c r s).2) := by
    rw [← hA]
  have hrun : (PostAnd A B).check c r s = B.check c r (A.check c r s).2 := by
    rw [PostAnd_check_eq, hpair]
  exact ⟨hrun, fun e hB => by rw [hrun, hB]⟩

/-- Witness for C6: with the first child succeeding and the second failing,
the composite equals the second child's run and fails with its error. -/
theorem PostAnd_runs_second_on_success_witness :
    (PostAnd allowPG (denyPG 5)).check () 0 0 = (denyPG 5).check () 0 ((allowPG.check () 0 0).2) ∧
    ((PostAnd allowPG (denyPG 5)).check () 0 0).1 = .err 5 :=
  ⟨(PostAnd_runs_second_on_success allowPG (denyPG 5) () 0 0 rfl).1,
   (PostAnd_runs_second_on_success allowPG (denyPG 5) () 0 0 rfl).2 5 rfl⟩

/-- Claim C7: whenever a composite check built with And, Or or PostAnd
fails, the surfaced error is exactly the error produced by one of its two
children on that same run — the combinators never construct or alter an
error of their own. -/
theorem combinators_surface_child_error {κ τ ε σ : Type} (A B : Guard κ ε σ)
    (P Q : PostGuard κ τ ε σ) (c : κ) (r : τ) (s : σ) (e : ε) :
    (((And A B).check c s).1 = .err e →
      (A.check c s).1 = .err e ∨ (B.check c (A.check c s).2).1 = .err e) ∧
    (((Or A B).check c s).1 = .err e →
      (A.check c s).1 = .err e ∨ (B.check c (A.check c s).2).1 = .err e) ∧
    (((PostAnd P Q).check c r s).1 = .err e →
      (P.check c r s).1 = .err e ∨ (Q.check c r (P.check c r s).2).1 = .err e) := by
  refine ⟨?_, ?_, ?_⟩
  · intro h
    cases hA : (A.check c s).1 with
    | ok =>
      right
      simp only [And_check_eq, CheckResult.rand, hA] at h
      exact h
    | err ea =>
      left
      simp only [And_check_eq, CheckResult.rand, hA] at h
      exact h
  · intro h
    cases hA : (A.check c s).1 with
    | ok =>
      simp only [Or_check_eq, CheckResult.ror, hA] at h
      exact absurd h (by simp)
    | err ea =>
      right
      simp only [Or_check_eq, CheckResult.ror, hA] at h
      exact h
  · intro h
    rw [PostAnd_check_eq] at h
    rcases hp : P.check c r s with ⟨res, s1⟩
    rw [hp] at h
    cases res with
    | ok =>
      right
      exact h
    | err ep =>
      left
      exact h

/-- Witness for C7: each of the three implications discharged on concrete
failing composites — And surfaces its first child's error, Or its second
child's, PostAnd its first child's. -/
theorem combinators_surface_child_error_witness :
    (((denyG 1).check () 0).1 = .err 1 ∨
      ((denyG 2).check () ((denyG 1).check () 0).2).1 = .err 1) ∧
    (((denyG 1).check () 0).1 = .err 2 ∨
      ((denyG 2).check () ((denyG 1).check () 0).2).1 = .err 2) ∧
    (((denyPG 1).check () 0 0).1 = .err 1 ∨
      ((denyPG 2).check () 0 ((denyPG 1).check () 0 0).2).1 = .err 1) :=
  ⟨(combinators_surface_child_error (denyG 1) (denyG 2) (denyPG 1) (denyPG 2) () 0 0 1).1 rfl,
   (combinators_surface_child_error (denyG 1) (denyG 2) (denyPG 1) (denyPG 2) () 0 0 2).2.1 rfl,
   (combinators_surface_child_error (denyG 1) (denyG 2) (denyPG 1) (denyPG 2) () 0 0 1).2.2 rfl⟩

/-- Claim C8: nested trees evaluate by the same pairwise rules applied
recursively — `Or(And(A, B), C).check` succeeds iff (A succeeds and B
succeeds) or C succeeds, and all three children are always evaluated: the
final effect state is C's after B's after A's. -/
theorem nested_or_and_evaluates_pairwise {κ ε σ : Type} (A B C : Guard κ ε σ) (c : κ) (s : σ) :
    ((Or (And A B) C).check c s).2 = (C.check c (B.check c (A.check c s).2).2).2 ∧
    (((Or (And A B) C).check c s).1.isOk = true ↔
      (((A.check c s).1.isOk = true ∧ (B.check c (A.check c s).2).1.isOk = true) ∨
        (C.check c (B.check c (A.check c s).2).2).1.isOk = true)) := by
  refine ⟨rfl, ?_⟩
  cases hA : (A.check c s).1 <;>
    cases hB : (B.check c (A.check c s).2).1 <;>
      cases hC : (C.check c (B.check c (A.check c s).2).2).1 <;>
        simp [Or_check_eq, And_check_eq, CheckResult.rand, CheckResult.ror,
          CheckResult.isOk, hA, hB, hC]

/-- Claim C9 (implicit): And and Or are associative in both outcome and
effect order — regrouping a three-child chain changes neither the result
nor the final effect state, the children running in the order A, B, C
either way. -/
theorem and_or_assoc {κ ε σ : Type} (A B C : Guard κ ε σ) (c : κ) (s : σ) :
    (And (And A B) C).check c s = (And A (And B C)).check c s ∧
    (Or (Or A B) C).check c s = (Or A (Or B C)).check c s := by
  constructor
  · rcases hA : A.check c s with ⟨ra, s1⟩
    rcases hB : B.check c s1 with ⟨rb, s2⟩
    rcases hC : C.check c s2 with ⟨rc, s3⟩
    cases ra <;> cases rb <;> cases rc <;>
      simp [And_check_eq, CheckResult.rand, hA, hB, hC]
  · rcases hA : A.check c s with ⟨ra, s1⟩
    rcases hB : B.check c s1 with ⟨rb, s2⟩
    rcases hC : C.check c s2 with ⟨rc, s3⟩
    cases ra <;> cases rb <;> cases rc <;>
      simp [Or_check_eq, CheckResult.ror, hA, hB, hC]

/-- Claim C10 (implicit): each combinator's outcome is a deterministic
function of its two children's outcomes alone — any two runs (possibly with
different guards, contexts, states or inspected values) in which the first
children return equal results and the second children return equal results
yield equal composite results. -/
theorem combinators_deterministic {κ τ ε σ : Type} :
    (∀ (A A2 B B2 : Guard κ ε σ) (c c2 : κ) (s s2 : σ),
      (A.check c s).1 = (A2.check c2 s2).1 →
      (B.check c (A.check c s).2).1 = (B2.check c2 (A2.check c2 s2).2).1 →
      ((And A B).check c s).1 = ((And A2 B2).check c2 s2).1) ∧
    (∀ (A A2 B B2 : Guard κ ε σ) (c c2 : κ) (s s2 : σ),
      (A.check c s).1 = (A2.check c2 s2).1 →
      (B.check c (A.check c s).2).1 = (B2.check c2 (A2.check c2 s2).2).1 →
      ((Or A B).check c s).1 = ((Or A2 B2).check c2 s2).1) ∧
    (∀ (P P2 Q Q2 : PostGuard κ τ ε σ) (c c2 : κ) (r r2 : τ) (s s2 : σ),
      (P.check c r s).1 = (P2.check c2 r2 s2).1 →
      (Q.check c r (P.check c r s).2).1 = (Q2.check c2 r2 (P2.check c2 r2 s2).2).1 →
      ((PostAnd P Q).check c r s).1 = ((PostAnd P2 Q2).check c2 r2 s2).1) := by
  refine ⟨?_, ?_, ?_⟩
  · intro A A2 B B2 c c2 s s2 h1 h2
    show CheckResult.rand (A.check c s).1 (B.check c (A.check c s).2).1 =
      CheckResult.rand (A2.check c2 s2).1 (B2.check c2 (A2.check c2 s2).2).1
    rw [h1, h2]
  · intro A A2 B B2 c c2 s s2 h1 h2
    show CheckResult.ror (A.check c s).1 (B.check c (A.check c s).2).1 =
      CheckResult.ror (A2.check c2 s2).1 (B2.check c2 (A2.check c2 s2).2).1
    rw [h1, h2]
  · intro P P2 Q Q2 c c2 r r2 s s2 h1 h2
    rcases hp : P.check c r s with ⟨res, s1⟩
    rcases hp2 : P2.check c2 r2 s2 with ⟨res2, t1⟩
    simp only [hp, hp2] at h1
    subst h1
    cases res with
    | ok =>
      simp only [hp, hp2] at h2
      simp only [PostAnd_check_eq, hp, hp2]
      exact h2
    | err ep =>
      simp [PostAnd_check_eq, hp, hp2]

/-- Witness for C10: the same composites run from two different starting
states (and a different inspected value for the post-guard) produce equal
results once their children's results agree. -/
theorem combinators_deterministic_witness :
    ((And allowG (denyG 5)).check () 0).1 = ((And allowG (denyG 5)).check () 3).1 ∧
    ((Or (denyG 1) allowG).check () 0).1 = ((Or (denyG 1) allowG).check () 3).1 ∧
    ((PostAnd allowPG (denyPG 5)).check () 0 0).1 =
      ((PostAnd allowPG (denyPG 5)).check () 7 3).1 :=
  ⟨(@combinators_deterministic Unit Nat Nat Nat).1 allowG allowG (denyG 5) (denyG 5)
      () () 0 3 rfl rfl,
   (@combinators_deterministic Unit Nat Nat Nat).2.1 (denyG 1) (denyG 1) allowG allowG
      () () 0 3 rfl rfl,
   (@combinators_deterministic Unit Nat Nat Nat).2.2 allowPG allowPG (denyPG 5) (denyPG 5)
      () () 0 7 0 3 rfl rfl⟩

end GuardAlg
